import Mathlib

/-!
Verification of the word-rest-api database access layer.

This file gives a shallow embedding of the Rust sources under `src/`:
`src/db.rs` (repository operations, dynamic update builder, pool
construction, seeding), `src/error.rs` (the error classifier),
`src/models/{user,post,vocabulary}.rs` (request validation and
normalization) and `src/main.rs` (startup sequencing).  Side effects of
the Rust code are made explicit: the PostgreSQL store becomes a `Store`
value threaded through each operation, `Uuid::new_v4()` and
`chrono::Utc::now()` become explicit parameters, and SQL statements
executed against the store are interpreted according to the schema
declared in `Database::migrate` (UNIQUE email, FOREIGN KEY with
cascading delete, SERIAL vocabulary ids).
-/

/-- Timestamps (`chrono::DateTime<Utc>` / `i64` in the sources) are
modelled as abstract instants; no arithmetic on them is needed. -/
abbrev Timestamp := Int

/-- A parsed UUID (`uuid::Uuid`) is modelled by its canonical lowercase
hyphenated string rendering. -/
abbrev Uuid := String

/-- Character-list prefix test used to model Rust `str::contains`. -/
def charsLead : List Char → List Char → Bool
  | [], _ => true
  | _ :: _, [] => false
  | p :: ps, c :: cs => p == c && charsLead ps cs

/-- Character-list substring test used to model Rust `str::contains`. -/
def charsHas (pat : List Char) : List Char → Bool
  | [] => pat.isEmpty
  | c :: cs => charsLead pat (c :: cs) || charsHas pat cs

/-- Models Rust `str::contains(pat)` for string patterns. -/
def strHas (s pat : String) : Bool := charsHas pat.data s.data

/-- Models Rust `str::trim` (leading and trailing whitespace removed).
Implemented over the character list so that it reduces in the kernel;
Rust trims the full Unicode White_Space class, Lean's
`Char.isWhitespace` the ASCII subset — identical on the inputs at
stake. -/
def strTrim (s : String) : String :=
  String.mk (((s.data.dropWhile Char.isWhitespace).reverse.dropWhile Char.isWhitespace).reverse)

/-- Models Rust `str::to_lowercase` (ASCII case folding; the emails at
stake are ASCII). -/
def strToLower (s : String) : String :=
  String.mk (s.data.map Char.toLower)

/-- Models Rust `str::split(c)` on a single separator character. -/
def splitChar (c : Char) : List Char → List (List Char)
  | [] => [[]]
  | x :: xs =>
    let r := splitChar c xs
    if x == c then [] :: r
    else
      match r with
      | [] => [[x]]
      | y :: ys => (x :: y) :: ys

/-- Models Rust `char::is_ascii_hexdigit`-style hex check done by the
uuid crate on each hex position. -/
def isHexChar (c : Char) : Bool :=
  c.isDigit || ('a' ≤ c && c ≤ 'f') || ('A' ≤ c && c ≤ 'F')

/-- Rebuild the canonical hyphenated rendering from 32 hex characters. -/
def hyphenate (cs : List Char) : String :=
  String.mk (cs.take 8 ++ ['-'] ++ ((cs.drop 8).take 4) ++ ['-'] ++
    ((cs.drop 12).take 4) ++ ['-'] ++ ((cs.drop 16).take 4) ++ ['-'] ++ cs.drop 20)

/-- Models `uuid::Uuid::parse_str`, restricted to the two shapes the
service actually receives: the hyphenated 8-4-4-4-12 form and the plain
32-hex form (the urn/braced forms accepted by the crate are omitted;
no claim depends on them).  The result is the canonical lowercase
hyphenated rendering, matching `Uuid`'s `Display`. -/
def parseUuid (s : String) : Option Uuid :=
  let cs := s.data
  if cs.length = 36 then
    if (List.range 36).all (fun i =>
        let c := cs.getD i ' '
        if i = 8 || i = 13 || i = 18 || i = 23 then c == '-' else isHexChar c) then
      some (String.mk (cs.map Char.toLower))
    else none
  else if cs.length = 32 && cs.all isHexChar then
    some (hyphenate (cs.map Char.toLower))
  else none

/-! ## Error classifier (`src/error.rs`) -/

/-- The SQLSTATE values inspected by `impl From<tokio_postgres::Error>
for ApiError` in `src/error.rs`; `other` stands for every SQLSTATE the
`match` does not name (caught by its `_` arm). -/
inductive SqlState
  | uniqueViolation
  | foreignKeyViolation
  | notNullViolation
  | checkViolation
  | invalidTextRepresentation
  | numericValueOutOfRange
  | stringDataLengthMismatch
  | connectionException
  | connectionDoesNotExist
  | connectionFailure
  | insufficientPrivilege
  | other (code : String)
deriving DecidableEq

/-- A raw `tokio_postgres::Error`: its structured SQLSTATE (when the
error carries one) and its display message. -/
structure PgError where
  code : Option SqlState
  msg : String
deriving DecidableEq

/-- `ApiError` from `src/error.rs` (the `Internal` payload is its
display message). -/
inductive ApiError
  | Database (s : String)
  | Validation (s : String)
  | NotFound (s : String)
  | Conflict (s : String)
  | Internal (s : String)
deriving DecidableEq

/-- `impl From<tokio_postgres::Error> for ApiError` (src/error.rs,
lines 131-185), arm for arm. -/
def apiErrorFromPg (e : PgError) : ApiError :=
  match e.code with
  | some SqlState.uniqueViolation =>
      if strHas e.msg "email" then ApiError.Conflict "Email address already exists"
      else ApiError.Conflict "Resource already exists"
  | some SqlState.foreignKeyViolation =>
      ApiError.Validation "Referenced resource does not exist"
  | some SqlState.notNullViolation =>
      if strHas e.msg "name" then ApiError.Validation "Required field \x27name\x27 is missing"
      else if strHas e.msg "email" then ApiError.Validation "Required field \x27email\x27 is missing"
      else ApiError.Validation "Required field is missing"
  | some SqlState.checkViolation =>
      ApiError.Validation "Data validation constraint violated"
  | some SqlState.invalidTextRepresentation =>
      ApiError.Validation "Invalid data format provided"
  | some SqlState.numericValueOutOfRange =>
      ApiError.Validation "Numeric value is out of range"
  | some SqlState.stringDataLengthMismatch =>
      ApiError.Validation "Text data exceeds maximum length"
  | some SqlState.connectionException | some SqlState.connectionDoesNotExist
  | some SqlState.connectionFailure =>
      ApiError.Database "Database connection unavailable"
  | some SqlState.insufficientPrivilege =>
      ApiError.Database "Database access denied"
  | _ =>
      ApiError.Database "Database operation failed"

/-- `deadpool_postgres::PoolError`, as matched by
`impl From<deadpool_postgres::PoolError> for ApiError`; `backend`
stands for the variants caught by the `_` arm. -/
inductive PoolError
  | timeout
  | closed
  | noRuntimeSpecified
  | postCreateHook (m : String)
  | backend (e : PgError)
deriving DecidableEq

/-- `impl From<deadpool_postgres::PoolError> for ApiError`
(src/error.rs, lines 190-215). -/
def apiErrorFromPool (e : PoolError) : ApiError :=
  match e with
  | PoolError.timeout => ApiError.Database "Database connection timeout"
  | PoolError.closed => ApiError.Database "Database service unavailable"
  | PoolError.noRuntimeSpecified => ApiError.Internal "Database configuration error"
  | PoolError.postCreateHook _ => ApiError.Database "Database connection setup failed"
  | PoolError.backend _ => ApiError.Database "Database connection unavailable"

/-- The spec's closed domain-error taxonomy (spec §4.4/§7). -/
inductive DomainKind
  | conflict
  | validationFailed
  | notFound
  | unavailable
  | permissionDenied
  | unknown
deriving DecidableEq

/-- Modelled from the spec: the abstraction from the code's `ApiError`
values to the spec taxonomy.  The code folds `Unavailable`,
`PermissionDenied` and `Unknown` into `ApiError::Database` and
distinguishes them only by the canned message, so the abstraction keys
on those messages; `Internal` surfaces a generic message and so
abstracts to `unknown`. -/
def domainKindOf : ApiError → DomainKind
  | ApiError.Conflict _ => DomainKind.conflict
  | ApiError.Validation _ => DomainKind.validationFailed
  | ApiError.NotFound _ => DomainKind.notFound
  | ApiError.Database m =>
      if m = "Database connection unavailable" || m = "Database connection timeout"
          || m = "Database service unavailable" || m = "Database connection setup failed" then
        DomainKind.unavailable
      else if m = "Database access denied" then DomainKind.permissionDenied
      else DomainKind.unknown
  | ApiError.Internal _ => DomainKind.unknown

/-- Modelled from the spec: the taxonomy table of §7 as a function of
the structured SQLSTATE (unique violation → Conflict; foreign-key and
malformed/oversized data → ValidationFailed; connection conditions →
Unavailable; access control → PermissionDenied; everything else →
Unknown). -/
def specKindOfCode : Option SqlState → DomainKind
  | some SqlState.uniqueViolation => DomainKind.conflict
  | some SqlState.foreignKeyViolation => DomainKind.validationFailed
  | some SqlState.notNullViolation => DomainKind.validationFailed
  | some SqlState.checkViolation => DomainKind.validationFailed
  | some SqlState.invalidTextRepresentation => DomainKind.validationFailed
  | some SqlState.numericValueOutOfRange => DomainKind.validationFailed
  | some SqlState.stringDataLengthMismatch => DomainKind.validationFailed
  | some SqlState.connectionException => DomainKind.unavailable
  | some SqlState.connectionDoesNotExist => DomainKind.unavailable
  | some SqlState.connectionFailure => DomainKind.unavailable
  | some SqlState.insufficientPrivilege => DomainKind.permissionDenied
  | _ => DomainKind.unknown

/-- Modelled from the spec: the taxonomy table of §7 applied to pool
errors (pool exhaustion / connection failure / timeout → Unavailable;
the runtime-configuration variant is not a backend condition and falls
to Unknown with a generic message). -/
def specKindOfPool : PoolError → DomainKind
  | PoolError.timeout => DomainKind.unavailable
  | PoolError.closed => DomainKind.unavailable
  | PoolError.noRuntimeSpecified => DomainKind.unknown
  | PoolError.postCreateHook _ => DomainKind.unavailable
  | PoolError.backend _ => DomainKind.unavailable

/-! ## Pool construction (`Database::create_pool`, src/db.rs 41-90) -/

/-- The three `deadpool_postgres::SslMode` values the code selects. -/
inductive SslMode
  | disable
  | prefer
  | require
deriving DecidableEq

/-- The SSL-mode `match` in `Database::create_pool` (src/db.rs,
lines 52-66).  The returned `Bool` records whether the `warn!` branch
was taken (unknown mode coerced with a warning). -/
def sslModeFor (s : String) : SslMode × Bool :=
  if s = "disable" then (SslMode.disable, false)
  else if s = "prefer" then (SslMode.prefer, false)
  else if s = "require" then (SslMode.require, false)
  else (SslMode.require, true)

/-! ## Request models and validation (`src/models/*.rs`) -/

/-- `is_valid_email` from src/models/user.rs (lines 151-181).  Rust
byte lengths and Unicode alphanumerics are modelled by Lean character
counts and `Char.isAlphanum`; identical on the ASCII inputs at stake. -/
def is_valid_email (email : String) : Bool :=
  let parts := splitChar '@' email.data
  if parts.length != 2 then false
  else
    let localPart := parts.getD 0 []
    let domain := parts.getD 1 []
    if localPart.isEmpty || localPart.length > 64 then false
    else if domain.isEmpty || domain.length > 253 then false
    else if !(domain.contains '.') then false
    else
      localPart.all (fun c => c.isAlphanum || ['.', '-', '_', '+'].contains c) &&
        domain.all (fun c => c.isAlphanum || ['.', '-'].contains c)

/-- `CreateUserRequest` (src/models/user.rs). -/
structure CreateUserRequest where
  name : String
  email : String
deriving DecidableEq

/-- `UpdateUserRequest` (src/models/user.rs). -/
structure UpdateUserRequest where
  name : Option String
  email : Option String
deriving DecidableEq

/-- `CreateUserRequest::validate` (src/models/user.rs, lines 65-89). -/
def CreateUserRequest.validate (r : CreateUserRequest) : Except String Unit :=
  if strTrim r.name == "" then Except.error "Name cannot be empty"
  else if r.name.length > 100 then Except.error "Name cannot exceed 100 characters"
  else if strTrim r.email == "" then Except.error "Email cannot be empty"
  else if !(is_valid_email r.email) then Except.error "Invalid email format"
  else if r.email.length > 255 then Except.error "Email cannot exceed 255 characters"
  else Except.ok ()

/-- `UpdateUserRequest::validate` (src/models/user.rs, lines 101-134). -/
def UpdateUserRequest.validate (r : UpdateUserRequest) : Except String Unit :=
  if r.name.isNone && r.email.isNone then
    Except.error "At least one field (name or email) must be provided for update"
  else
    let nameErr : Option String :=
      match r.name with
      | some name =>
          if strTrim name == "" then some "Name cannot be empty"
          else if name.length > 100 then some "Name cannot exceed 100 characters"
          else none
      | none => none
    match nameErr with
    | some m => Except.error m
    | none =>
        match r.email with
        | some email =>
            if strTrim email == "" then Except.error "Email cannot be empty"
            else if !(is_valid_email email) then Except.error "Invalid email format"
            else if email.length > 255 then Except.error "Email cannot exceed 255 characters"
            else Except.ok ()
        | none => Except.ok ()

/-- `UpdateUserRequest::get_normalized_name` (src/models/user.rs). -/
def UpdateUserRequest.get_normalized_name (r : UpdateUserRequest) : Option String :=
  r.name.map (fun n => strTrim n)

/-- `UpdateUserRequest::get_normalized_email` (src/models/user.rs).
Rust's Unicode `to_lowercase` is modelled by ASCII `String.toLower`. -/
def UpdateUserRequest.get_normalized_email (r : UpdateUserRequest) : Option String :=
  r.email.map (fun e => strToLower (strTrim e))

/-- `CreatePostRequest` (src/models/post.rs). -/
structure CreatePostRequest where
  user_id : String
  title : String
  content : Option String
deriving DecidableEq

/-- `CreatePostRequest::validate` (src/models/post.rs, lines 55-83). -/
def CreatePostRequest.validate (r : CreatePostRequest) : Except String Unit :=
  if strTrim r.user_id == "" then Except.error "User ID cannot be empty"
  else if (parseUuid r.user_id).isNone then Except.error "User ID must be a valid UUID"
  else if strTrim r.title == "" then Except.error "Title cannot be empty"
  else if r.title.length > 200 then Except.error "Title cannot exceed 200 characters"
  else
    match r.content with
    | some content =>
        if content.length > 10000 then Except.error "Content cannot exceed 10000 characters"
        else Except.ok ()
    | none => Except.ok ()

/-- `CreatePostRequest::get_normalized_content` (src/models/post.rs,
lines 104-109): trimmed, `none` if the trimmed text is empty. -/
def CreatePostRequest.get_normalized_content (r : CreatePostRequest) : Option String :=
  (r.content.map (fun c => strTrim c)).filter (fun c => !(c == ""))

/-- `CreateVocabularyRequest` (src/models/vocabulary.rs). -/
structure CreateVocabularyRequest where
  en_word : String
  ja_word : String
  en_example : Option String
  ja_example : Option String
deriving DecidableEq

/-- `CreateVocabularyRequest::validate` (src/models/vocabulary.rs,
lines 27-61). -/
def CreateVocabularyRequest.validate (r : CreateVocabularyRequest) : Except String Unit :=
  if strTrim r.en_word == "" then Except.error "English word cannot be empty"
  else if r.en_word.length > 200 then Except.error "English word cannot exceed 200 characters"
  else if strTrim r.ja_word == "" then Except.error "Japanese word cannot be empty"
  else if r.ja_word.length > 200 then Except.error "Japanese word cannot exceed 200 characters"
  else
    match r.en_example with
    | some ex =>
        if ex.length > 1000 then Except.error "English example cannot exceed 1000 characters"
        else
          match r.ja_example with
          | some ex2 =>
              if ex2.length > 1000 then Except.error "Japanese example cannot exceed 1000 characters"
              else Except.ok ()
          | none => Except.ok ()
    | none =>
        match r.ja_example with
        | some ex2 =>
            if ex2.length > 1000 then Except.error "Japanese example cannot exceed 1000 characters"
            else Except.ok ()
        | none => Except.ok ()

/-- `CreateVocabularyRequest::get_normalized_en_word`. -/
def CreateVocabularyRequest.get_normalized_en_word (r : CreateVocabularyRequest) : String :=
  strTrim r.en_word

/-- `CreateVocabularyRequest::get_normalized_ja_word`. -/
def CreateVocabularyRequest.get_normalized_ja_word (r : CreateVocabularyRequest) : String :=
  strTrim r.ja_word

/-- `CreateVocabularyRequest::get_normalized_en_example`
(src/models/vocabulary.rs, lines 74-79). -/
def CreateVocabularyRequest.get_normalized_en_example (r : CreateVocabularyRequest) :
    Option String :=
  (r.en_example.map (fun e => strTrim e)).filter (fun e => !(e == ""))

/-- `CreateVocabularyRequest::get_normalized_ja_example`
(src/models/vocabulary.rs, lines 82-87). -/
def CreateVocabularyRequest.get_normalized_ja_example (r : CreateVocabularyRequest) :
    Option String :=
  (r.ja_example.map (fun e => strTrim e)).filter (fun e => !(e == ""))

/-! ## The store and the rows it holds

The `Store` models the PostgreSQL database as created by
`Database::migrate` (src/db.rs, lines 116-243): a `users` table whose
`email` column is UNIQUE, a `posts` table whose `user_id` references
`users(id)` ON DELETE CASCADE, and a `vocabulary` table with a SERIAL
primary key (modelled by `nextVocabId`).  Result-set ordering
(`ORDER BY created_at DESC`) is abstracted to the row order of the
lists; no claim concerns ordering. -/

/-- A row of the `users` table. -/
structure UserRow where
  id : Uuid
  name : String
  email : String
  created_at : Timestamp
  updated_at : Timestamp
deriving DecidableEq

/-- A row of the `posts` table. -/
structure PostRow where
  id : Uuid
  user_id : String
  title : String
  content : Option String
  created_at : Timestamp
  updated_at : Timestamp
deriving DecidableEq

/-- A row of the `vocabulary` table. -/
structure VocabRow where
  id : Int
  en_word : String
  ja_word : String
  en_example : Option String
  ja_example : Option String
  created_at : Timestamp
  updated_at : Timestamp
deriving DecidableEq

/-- The migrated database. -/
structure Store where
  users : List UserRow
  posts : List PostRow
  vocab : List VocabRow
  nextVocabId : Int
deriving DecidableEq

/-- The empty migrated database. -/
def store0 : Store := { users := [], posts := [], vocab := [], nextVocabId := 1 }

/-! ## User repository operations (src/db.rs) -/

/-- `CreateUserRequest::into_user` (src/models/user.rs, lines 93-95)
together with `User::new`: trims the name, trims and lower-cases the
email; `Uuid::new_v4()` and `Utc::now()` are the explicit `newId` /
`now` parameters. -/
def CreateUserRequest.into_user (r : CreateUserRequest) (newId : Uuid) (now : Timestamp) :
    UserRow :=
  { id := newId, name := strTrim r.name, email := strToLower (strTrim r.email),
    created_at := now, updated_at := now }

/-- `Database::create_user` (src/db.rs, lines 267-297).  The INSERT is
interpreted against the store: the schema's `email UNIQUE` constraint
makes a duplicate email raise SQLSTATE unique_violation (PostgreSQL
message naming the `users_email_key` constraint), which the code routes
through `apiErrorFromPg`. -/
def create_user (s : Store) (newId : Uuid) (now : Timestamp) (r : CreateUserRequest) :
    Except ApiError UserRow × Store :=
  match r.validate with
  | Except.error m => (Except.error (ApiError.Validation m), s)
  | Except.ok _ =>
    let u := r.into_user newId now
    if s.users.any (fun x => x.email == u.email) then
      (Except.error (apiErrorFromPg
        { code := some SqlState.uniqueViolation,
          msg := "duplicate key value violates unique constraint users_email_key" }), s)
    else
      (Except.ok u, { s with users := s.users ++ [u] })

/-- `Database::get_user_by_id` (src/db.rs, lines 301-326): parse the
id (Validation error on failure), then `query_opt`; a missing row is a
`NotFound`, a present row is returned. -/
def get_user_by_id (s : Store) (user_id : String) : Except ApiError UserRow :=
  match parseUuid user_id with
  | none => Except.error (ApiError.Validation "Invalid user ID format")
  | some uuid =>
    match s.users.find? (fun x => x.id == uuid) with
    | some row => Except.ok row
    | none => Except.error (ApiError.NotFound ("User with id " ++ user_id ++ " not found"))

/-- The typed values bound to the positional placeholders of the
dynamic UPDATE statement. -/
inductive SqlParam
  | pstr (s : String)
  | ptime (t : Timestamp)
  | puuid (u : Uuid)
deriving DecidableEq

/-- The result of the dynamic statement construction inside
`Database::update_user`. -/
structure UpdateBuild where
  query_parts : List String
  params : List SqlParam
  param_count : Nat
  query : String
deriving DecidableEq

/-- The dynamic statement construction of `Database::update_user`
(src/db.rs, lines 363-399), step for step: `query_parts`, `params` and
`param_count` evolve exactly as the Rust pushes do (name if present,
then email if present, then `updated_at`, then the WHERE parameter),
and `query` is the final `format!`. -/
def build_update_user (r : UpdateUserRequest) (updated_at : Timestamp) (uuid : Uuid) :
    UpdateBuild :=
  let qp0 : List String := []
  let ps0 : List SqlParam := []
  let c0 : Nat := 1
  let step1 :=
    match r.get_normalized_name with
    | some name => (qp0 ++ ["name = $" ++ toString c0], ps0 ++ [SqlParam.pstr name], c0 + 1)
    | none => (qp0, ps0, c0)
  let step2 :=
    match r.get_normalized_email with
    | some email =>
        (step1.1 ++ ["email = $" ++ toString step1.2.2],
         step1.2.1 ++ [SqlParam.pstr email], step1.2.2 + 1)
    | none => step1
  let qp3 := step2.1 ++ ["updated_at = $" ++ toString step2.2.2]
  let ps3 := step2.2.1 ++ [SqlParam.ptime updated_at]
  let c3 := step2.2.2 + 1
  let ps4 := ps3 ++ [SqlParam.puuid uuid]
  { query_parts := qp3,
    params := ps4,
    param_count := c3,
    query := "UPDATE users SET " ++ String.intercalate ", " qp3 ++ " WHERE id = $"
      ++ toString c3 ++ " RETURNING id, name, email, created_at, updated_at" }

/-- Modelled from the spec: the ordered (column, value) list that §9
prescribes for the partial update — present optional fields in request
order (name, then email), then the timestamp column. -/
def updateColumnsSpec (r : UpdateUserRequest) (updated_at : Timestamp) :
    List (String × SqlParam) :=
  (match r.get_normalized_name with
   | some name => [("name", SqlParam.pstr name)]
   | none => []) ++
  (match r.get_normalized_email with
   | some email => [("email", SqlParam.pstr email)]
   | none => []) ++
  [("updated_at", SqlParam.ptime updated_at)]

/-- `Database::update_user` (src/db.rs, lines 353-419): validate the
request, parse the id, build the dynamic statement
(`build_update_user`) and run it.  Executing the UPDATE against the
store sets the present columns plus `updated_at` on the matching row
(RETURNING that row), yields `NotFound` when no row matches, and — by
the schema's `email UNIQUE` constraint — raises unique_violation when
the new email already belongs to another row. -/
def update_user (s : Store) (now : Timestamp) (user_id : String) (r : UpdateUserRequest) :
    Except ApiError UserRow × Store :=
  match r.validate with
  | Except.error m => (Except.error (ApiError.Validation m), s)
  | Except.ok _ =>
    match parseUuid user_id with
    | none => (Except.error (ApiError.Validation "Invalid user ID format"), s)
    | some uuid =>
      match s.users.find? (fun x => x.id == uuid) with
      | none => (Except.error (ApiError.NotFound ("User with id " ++ user_id ++ " not found")), s)
      | some row =>
        match r.get_normalized_email with
        | some email =>
          if s.users.any (fun x => x.email == email && !(x.id == uuid)) then
            (Except.error (apiErrorFromPg
              { code := some SqlState.uniqueViolation,
                msg := "duplicate key value violates unique constraint users_email_key" }), s)
          else
            let row2 := { row with name := (r.get_normalized_name).getD row.name,
                                   email := email, updated_at := now }
            (Except.ok row2,
             { s with users := s.users.map (fun x => if x.id == uuid then row2 else x) })
        | none =>
          let row2 := { row with name := (r.get_normalized_name).getD row.name,
                                 updated_at := now }
          (Except.ok row2,
           { s with users := s.users.map (fun x => if x.id == uuid then row2 else x) })

/-- `Database::delete_user` (src/db.rs, lines 423-441): parse the id,
DELETE the row; zero rows affected is `NotFound`.  The schema's
ON DELETE CASCADE removes the user's posts. -/
def delete_user (s : Store) (user_id : String) : Except ApiError Unit × Store :=
  match parseUuid user_id with
  | none => (Except.error (ApiError.Validation "Invalid user ID format"), s)
  | some uuid =>
    if s.users.any (fun x => x.id == uuid) then
      (Except.ok (),
       { s with users := s.users.filter (fun x => !(x.id == uuid)),
                posts := s.posts.filter (fun x => !(x.user_id == uuid)) })
    else
      (Except.error (ApiError.NotFound ("User with id " ++ user_id ++ " not found")), s)

/-! ## Post repository operations (src/db.rs) -/

/-- `CreatePostRequest::into_post` (src/models/post.rs, lines 86-96)
together with `Post::new`: trims `user_id` and `title`, and normalizes
the optional content (trimmed, dropped when the trimmed text is
empty). -/
def CreatePostRequest.into_post (r : CreatePostRequest) (newId : Uuid) (now : Timestamp) :
    PostRow :=
  { id := newId, user_id := strTrim r.user_id, title := strTrim r.title,
    content := (r.content.map (fun c => strTrim c)).filter (fun c => !(c == "")),
    created_at := now, updated_at := now }

/-- `Database::create_post` (src/db.rs, lines 448-479).  The INSERT is
interpreted against the store: `posts.user_id REFERENCES users(id)`
makes an insert for a nonexistent user raise SQLSTATE
foreign_key_violation, routed through `apiErrorFromPg`. -/
def create_post (s : Store) (newId : Uuid) (now : Timestamp) (r : CreatePostRequest) :
    Except ApiError PostRow × Store :=
  match r.validate with
  | Except.error m => (Except.error (ApiError.Validation m), s)
  | Except.ok _ =>
    let p := r.into_post newId now
    if s.users.any (fun x => some x.id == parseUuid p.user_id) then
      (Except.ok p, { s with posts := s.posts ++ [p] })
    else
      (Except.error (apiErrorFromPg
        { code := some SqlState.foreignKeyViolation,
          msg := "insert or update on table posts violates foreign key constraint" }), s)

/-- `Database::get_post_by_id` (src/db.rs, lines 484-510). -/
def get_post_by_id (s : Store) (post_id : String) : Except ApiError PostRow :=
  match parseUuid post_id with
  | none => Except.error (ApiError.Validation "Invalid post ID format")
  | some uuid =>
    match s.posts.find? (fun x => x.id == uuid) with
    | some row => Except.ok row
    | none => Except.error (ApiError.NotFound ("Post with id " ++ post_id ++ " not found"))

/-- `Database::get_all_posts` (src/db.rs, lines 514-558): with a user
filter the id is parsed first (Validation error on failure) and the
rows are filtered by equality on `user_id`; without a filter all rows
are returned. -/
def get_all_posts (s : Store) (user_id_filter : Option String) :
    Except ApiError (List PostRow) :=
  match user_id_filter with
  | some user_id_str =>
    match parseUuid user_id_str with
    | none => Except.error (ApiError.Validation "Invalid user ID format")
    | some uuid => Except.ok (s.posts.filter (fun x => x.user_id == uuid))
  | none => Except.ok s.posts

/-! ## Vocabulary repository operations (src/db.rs) -/

/-- `Database::create_vocabulary` (src/db.rs, lines 592-629): the
normalized values are what the INSERT binds; the SERIAL key assigns
`nextVocabId`. -/
def create_vocabulary (s : Store) (now : Timestamp) (r : CreateVocabularyRequest) :
    Except ApiError VocabRow × Store :=
  match r.validate with
  | Except.error m => (Except.error (ApiError.Validation m), s)
  | Except.ok _ =>
    let row : VocabRow :=
      { id := s.nextVocabId,
        en_word := r.get_normalized_en_word,
        ja_word := r.get_normalized_ja_word,
        en_example := r.get_normalized_en_example,
        ja_example := r.get_normalized_ja_example,
        created_at := now, updated_at := now }
    (Except.ok row, { s with vocab := s.vocab ++ [row], nextVocabId := s.nextVocabId + 1 })

/-- `Database::get_vocabulary_by_id` (src/db.rs, lines 633-656). -/
def get_vocabulary_by_id (s : Store) (id : Int) : Except ApiError VocabRow :=
  match s.vocab.find? (fun x => x.id == id) with
  | some row => Except.ok row
  | none =>
    Except.error (ApiError.NotFound ("Vocabulary entry with id " ++ toString id ++ " not found"))

/-- The fixed sample set inserted by `Database::seed_vocabulary`
(src/db.rs, lines 703-709). -/
def seedData : List (String × String × String × String) :=
  [("apple", "りんご", "I eat an apple every day.", "私は毎日りんごを食べます。"),
   ("book", "本", "This is an interesting book.", "これは面白い本です。"),
   ("computer", "コンピューター", "I use my computer for work.", "私は仕事でコンピューターを使います。"),
   ("study", "勉強する", "I study English every morning.", "私は毎朝英語を勉強します。"),
   ("friend", "友達", "She is my best friend.", "彼女は私の親友です。")]

/-- `Database::seed_vocabulary` (src/db.rs, lines 685-729): count the
rows; if any exist, return without touching the table; otherwise insert
the five sample rows (SERIAL ids in insertion order). -/
def seed_vocabulary (s : Store) (now : Timestamp) : Except ApiError Unit × Store :=
  let count := s.vocab.length
  if count > 0 then (Except.ok (), s)
  else
    let rows := seedData.enum.map (fun p =>
      ({ id := s.nextVocabId + p.1,
         en_word := p.2.1, ja_word := p.2.2.1,
         en_example := some p.2.2.2.1, ja_example := some p.2.2.2.2,
         created_at := now, updated_at := now } : VocabRow))
    (Except.ok (), { s with vocab := s.vocab ++ rows, nextVocabId := s.nextVocabId + rows.length })

/-! ## Startup sequencing (`main`, src/main.rs lines 42-74) -/

/-- The observable startup steps of `main`, in source order:
`Database::new` (pool construction plus connection test), the explicit
`health_check`, `migrate`, `seed_vocabulary`, then serving traffic. -/
inductive StartEvent
  | poolOpen
  | healthCheck
  | migrate
  | seedVocabulary
  | serve
deriving DecidableEq

/-- Whether `main` reaches `axum::serve` or exits via
`std::process::exit(1)`. -/
inductive StartResult
  | exited
  | serving
deriving DecidableEq

/-- The success or failure of each fallible startup step, as decided by
the environment (database reachable, migration SQL accepted, ...). -/
structure StartEnv where
  poolOk : Bool
  healthOk : Bool
  migrateOk : Bool
  seedOk : Bool
deriving DecidableEq

/-- `main` (src/main.rs, lines 42-74) as a sequence of attempted steps:
each step is attempted only after every earlier step succeeded, and the
first failure exits the process.  The returned list records the steps
attempted, in order. -/
def startup (env : StartEnv) : List StartEvent × StartResult :=
  if !env.poolOk then ([StartEvent.poolOpen], StartResult.exited)
  else if !env.healthOk then
    ([StartEvent.poolOpen, StartEvent.healthCheck], StartResult.exited)
  else if !env.migrateOk then
    ([StartEvent.poolOpen, StartEvent.healthCheck, StartEvent.migrate], StartResult.exited)
  else if !env.seedOk then
    ([StartEvent.poolOpen, StartEvent.healthCheck, StartEvent.migrate,
      StartEvent.seedVocabulary], StartResult.exited)
  else
    ([StartEvent.poolOpen, StartEvent.healthCheck, StartEvent.migrate,
      StartEvent.seedVocabulary, StartEvent.serve], StartResult.serving)

/-! ## Theorems -/

/-- C1: in the dynamic statement built by `update_user`, placeholders
are assigned in the exact order the present fields (name, then email)
are appended, the `updated_at` column follows them, and the identifier
predicate is the final bound parameter; for every combination of
present fields the i-th placeholder of the SQL text is bound to the
i-th parameter, and the WHERE placeholder index is the parameter-list
length. -/
theorem update_user_binding_order (r : UpdateUserRequest) (uuid : Uuid) (t : Timestamp) :
    (build_update_user r t uuid).query_parts =
      (updateColumnsSpec r t).enum.map (fun p => p.2.1 ++ " = $" ++ toString (p.1 + 1)) ∧
    (build_update_user r t uuid).params =
      (updateColumnsSpec r t).map Prod.snd ++ [SqlParam.puuid uuid] ∧
    (build_update_user r t uuid).param_count = (updateColumnsSpec r t).length + 1 ∧
    (build_update_user r t uuid).query =
      "UPDATE users SET "
        ++ String.intercalate ", " ((build_update_user r t uuid).query_parts)
        ++ " WHERE id = $" ++ toString ((updateColumnsSpec r t).length + 1)
        ++ " RETURNING id, name, email, created_at, updated_at" := by
  rcases r with ⟨name, email⟩
  cases name <;> cases email <;> exact ⟨rfl, rfl, rfl, rfl⟩

/-- C5: every transport-security mode string other than the recognized
`disable`, `prefer`, `require` is coerced by pool construction to
`require`, with the warning branch taken. -/
theorem create_pool_ssl_coercion (s : String)
    (h1 : s ≠ "disable") (h2 : s ≠ "prefer") (h3 : s ≠ "require") :
    sslModeFor s = (SslMode.require, true) := by
  simp [sslModeFor, h1, h2, h3]

/-- Witness for C5 at the concrete mode string "verify-full". -/
theorem create_pool_ssl_coercion_witness :
    ("verify-full" ≠ "disable") ∧ ("verify-full" ≠ "prefer") ∧ ("verify-full" ≠ "require") ∧
    sslModeFor "verify-full" = (SslMode.require, true) :=
  ⟨by decide, by decide, by decide,
   create_pool_ssl_coercion "verify-full" (by decide) (by decide) (by decide)⟩

/-- C2 counterexample: invoked with both fields absent, `update_user`
does not produce a timestamp-only statement — its request validation
rejects the input first with a Validation error, leaving the store
untouched. -/
theorem update_user_all_absent_counterexample :
    update_user store0 0 "123e4567-e89b-12d3-a456-426614174000"
        { name := none, email := none } =
      (Except.error (ApiError.Validation
        "At least one field (name or email) must be provided for update"), store0) := rfl

/-- C2 amended: with every optional field absent, `update_user` rejects
the request at its own validation step (a Validation error, store
unchanged) before any SQL is built; the statement builder itself,
applied to an all-absent request, still degrades gracefully to the
well-formed statement that updates only the `updated_at` column with
the identifier as the final parameter. -/
theorem update_user_all_absent_amended (s : Store) (t : Timestamp) (user_id : String)
    (uuid : Uuid) (r : UpdateUserRequest) (hn : r.name = none) (he : r.email = none) :
    update_user s t user_id r =
      (Except.error (ApiError.Validation
        "At least one field (name or email) must be provided for update"), s) ∧
    (build_update_user r t uuid).query_parts = ["updated_at = $1"] ∧
    (build_update_user r t uuid).params = [SqlParam.ptime t, SqlParam.puuid uuid] ∧
    (build_update_user r t uuid).query =
      "UPDATE users SET updated_at = $1 WHERE id = $2 RETURNING id, name, email, created_at, updated_at" := by
  have hr : r = { name := none, email := none } := by
    cases r
    simp_all
  subst hr
  exact ⟨rfl, rfl, rfl, rfl⟩

/-- Witness for C2's amended theorem at a concrete all-absent request. -/
theorem update_user_all_absent_amended_witness :
    ({ name := none, email := none } : UpdateUserRequest).name = none ∧
    ({ name := none, email := none } : UpdateUserRequest).email = none ∧
    (update_user store0 0 "123e4567-e89b-12d3-a456-426614174000"
        { name := none, email := none } =
      (Except.error (ApiError.Validation
        "At least one field (name or email) must be provided for update"), store0) ∧
    (build_update_user { name := none, email := none } 0 "123e4567-e89b-12d3-a456-426614174000").query_parts = ["updated_at = $1"] ∧
    (build_update_user { name := none, email := none } 0 "123e4567-e89b-12d3-a456-426614174000").params = [SqlParam.ptime 0, SqlParam.puuid "123e4567-e89b-12d3-a456-426614174000"] ∧
    (build_update_user { name := none, email := none } 0 "123e4567-e89b-12d3-a456-426614174000").query =
      "UPDATE users SET updated_at = $1 WHERE id = $2 RETURNING id, name, email, created_at, updated_at") :=
  ⟨rfl, rfl,
   update_user_all_absent_amended store0 0 "123e4567-e89b-12d3-a456-426614174000"
     "123e4567-e89b-12d3-a456-426614174000" { name := none, email := none } rfl rfl⟩

/-- C3: the error classifier maps every raw backend error to exactly
the taxonomy kind of the spec table — unique violation to Conflict,
foreign-key and malformed/oversized data to ValidationFailed,
connection/timeout/pool conditions to Unavailable, access-control
rejection to PermissionDenied, and everything else to Unknown with the
fixed generic message. -/
theorem classifier_matches_taxonomy (e : PgError) (pe : PoolError) :
    domainKindOf (apiErrorFromPg e) = specKindOfCode e.code ∧
    domainKindOf (apiErrorFromPool pe) = specKindOfPool pe ∧
    (specKindOfCode e.code = DomainKind.unknown →
      apiErrorFromPg e = ApiError.Database "Database operation failed") := by
  refine ⟨?_, ?_, ?_⟩
  · rcases e with ⟨code, msg⟩
    rcases code with _ | c
    · rfl
    · cases c <;>
        first
          | rfl
          | (simp only [apiErrorFromPg]
             split <;>
               first
                 | rfl
                 | (split <;> rfl))
  · cases pe <;> rfl
  · intro h
    rcases e with ⟨code, msg⟩
    rcases code with _ | c
    · rfl
    · cases c <;> first | rfl | simp [specKindOfCode] at h

/-- Witness for C3 at a concrete unclassified backend error. -/
theorem classifier_matches_taxonomy_witness :
    specKindOfCode (some (SqlState.other "P0001")) = DomainKind.unknown ∧
    apiErrorFromPg { code := some (SqlState.other "P0001"), msg := "raise exception custom" } =
      ApiError.Database "Database operation failed" :=
  ⟨rfl,
   (classifier_matches_taxonomy
     { code := some (SqlState.other "P0001"), msg := "raise exception custom" }
     PoolError.timeout).2.2 rfl⟩

/-- C4: at startup, migration is attempted only after the health check
has succeeded (and appears after it in the attempted-step order),
vocabulary seeding — the first Repository Operation — is attempted only
after migration has succeeded, and a failure of pool open, health check
or migration exits the process without ever serving traffic. -/
theorem startup_ordering (env : StartEnv) :
    (StartEvent.migrate ∈ (startup env).1 →
      env.healthOk = true ∧
      (startup env).1.indexOf StartEvent.healthCheck <
        (startup env).1.indexOf StartEvent.migrate) ∧
    (StartEvent.seedVocabulary ∈ (startup env).1 →
      env.migrateOk = true ∧
      (startup env).1.indexOf StartEvent.migrate <
        (startup env).1.indexOf StartEvent.seedVocabulary) ∧
    ((env.poolOk = false ∨ env.healthOk = false ∨ env.migrateOk = false) →
      (startup env).2 = StartResult.exited ∧ StartEvent.serve ∉ (startup env).1) := by
  rcases env with ⟨p, h, m, sd⟩
  cases p <;> cases h <;> cases m <;> cases sd <;> decide

/-- Witness for C4: the all-healthy startup orders health check before
migration, and a failing migration exits without serving. -/
theorem startup_ordering_witness :
    ((⟨true, true, true, true⟩ : StartEnv).healthOk = true ∧
      (startup ⟨true, true, true, true⟩).1.indexOf StartEvent.healthCheck <
        (startup ⟨true, true, true, true⟩).1.indexOf StartEvent.migrate) ∧
    ((startup ⟨true, true, false, true⟩).2 = StartResult.exited ∧
      StartEvent.serve ∉ (startup ⟨true, true, false, true⟩).1) :=
  ⟨(startup_ordering ⟨true, true, true, true⟩).1 (by decide),
   (startup_ordering ⟨true, true, false, true⟩).2.2 (by decide)⟩

/-- C6: `seed_vocabulary` inserts the five-row sample set only when the
vocabulary table is empty, changes nothing otherwise, and running it
twice from an empty table leaves exactly five rows. -/
theorem seed_vocabulary_guarded (s : Store) (t t2 : Timestamp) :
    (s.vocab = [] →
      (seed_vocabulary s t).2.vocab.length = 5 ∧ (seed_vocabulary s t).1 = Except.ok ()) ∧
    (s.vocab ≠ [] → seed_vocabulary s t = (Except.ok (), s)) ∧
    (s.vocab = [] →
      (seed_vocabulary (seed_vocabulary s t).2 t2).2.vocab.length = 5) := by
  rcases s with ⟨us, ps, vs, nid⟩
  refine ⟨?_, ?_, ?_⟩
  · intro h
    simp only at h
    subst h
    exact ⟨rfl, rfl⟩
  · intro h
    simp only at h
    cases vs with
    | nil => exact absurd rfl h
    | cons v vs2 => simp [seed_vocabulary]
  · intro h
    simp only at h
    subst h
    rfl

/-- Witness for C6 at the empty store. -/
theorem seed_vocabulary_guarded_witness :
    store0.vocab = [] ∧
    ((seed_vocabulary store0 0).2.vocab.length = 5 ∧
      (seed_vocabulary store0 0).1 = Except.ok ()) ∧
    (seed_vocabulary (seed_vocabulary store0 0).2 1).2.vocab.length = 5 ∧
    ((seed_vocabulary store0 0).2.vocab ≠ [] ∧
      seed_vocabulary (seed_vocabulary store0 0).2 1 =
        (Except.ok (), (seed_vocabulary store0 0).2)) :=
  ⟨rfl,
   (seed_vocabulary_guarded store0 0 1).1 rfl,
   (seed_vocabulary_guarded store0 0 1).2.2 rfl,
   by decide,
   (seed_vocabulary_guarded (seed_vocabulary store0 0).2 1 0).2.1 (by decide)⟩

/-- C7: each read-by-id operation, once its identifier is parsed,
returns either a row of the store or a `NotFound` error — absence is
the typed `NotFound` outcome, never any other error kind. -/
theorem read_by_id_absence (s : Store) (uid pid : String) (u p : Uuid) (vid : Int)
    (hu : parseUuid uid = some u) (hp : parseUuid pid = some p) :
    ((∃ r, get_user_by_id s uid = Except.ok r ∧ r ∈ s.users) ∨
      get_user_by_id s uid =
        Except.error (ApiError.NotFound ("User with id " ++ uid ++ " not found"))) ∧
    ((∃ r, get_post_by_id s pid = Except.ok r ∧ r ∈ s.posts) ∨
      get_post_by_id s pid =
        Except.error (ApiError.NotFound ("Post with id " ++ pid ++ " not found"))) ∧
    ((∃ r, get_vocabulary_by_id s vid = Except.ok r ∧ r ∈ s.vocab) ∨
      get_vocabulary_by_id s vid =
        Except.error (ApiError.NotFound
          ("Vocabulary entry with id " ++ toString vid ++ " not found"))) := by
  refine ⟨?_, ?_, ?_⟩
  · simp only [get_user_by_id, hu]
    cases hf : s.users.find? (fun x => x.id == u) with
    | some row => exact Or.inl ⟨row, rfl, List.mem_of_find?_eq_some hf⟩
    | none => exact Or.inr rfl
  · simp only [get_post_by_id, hp]
    cases hf : s.posts.find? (fun x => x.id == p) with
    | some row => exact Or.inl ⟨row, rfl, List.mem_of_find?_eq_some hf⟩
    | none => exact Or.inr rfl
  · simp only [get_vocabulary_by_id]
    cases hf : s.vocab.find? (fun x => x.id == vid) with
    | some row => exact Or.inl ⟨row, rfl, List.mem_of_find?_eq_some hf⟩
    | none => exact Or.inr rfl

/-- Witness for C7 at the empty store and a concrete parsable id. -/
theorem read_by_id_absence_witness :
    parseUuid "123e4567-e89b-12d3-a456-426614174000" =
      some "123e4567-e89b-12d3-a456-426614174000" ∧
    (((∃ r, get_user_by_id store0 "123e4567-e89b-12d3-a456-426614174000" = Except.ok r ∧
        r ∈ store0.users) ∨
      get_user_by_id store0 "123e4567-e89b-12d3-a456-426614174000" =
        Except.error (ApiError.NotFound
          ("User with id " ++ "123e4567-e89b-12d3-a456-426614174000" ++ " not found"))) ∧
    ((∃ r, get_post_by_id store0 "123e4567-e89b-12d3-a456-426614174000" = Except.ok r ∧
        r ∈ store0.posts) ∨
      get_post_by_id store0 "123e4567-e89b-12d3-a456-426614174000" =
        Except.error (ApiError.NotFound
          ("Post with id " ++ "123e4567-e89b-12d3-a456-426614174000" ++ " not found"))) ∧
    ((∃ r, get_vocabulary_by_id store0 7 = Except.ok r ∧ r ∈ store0.vocab) ∨
      get_vocabulary_by_id store0 7 =
        Except.error (ApiError.NotFound
          ("Vocabulary entry with id " ++ toString (7 : Int) ++ " not found")))) :=
  ⟨rfl,
   read_by_id_absence store0 "123e4567-e89b-12d3-a456-426614174000"
     "123e4567-e89b-12d3-a456-426614174000" "123e4567-e89b-12d3-a456-426614174000"
     "123e4567-e89b-12d3-a456-426614174000" 7 rfl rfl⟩

/-- C9: for an id string that is not a syntactically valid UUID, every
string-identified user/post operation returns a Validation error before
any statement runs, and the store is unchanged. -/
theorem invalid_id_rejected (s : Store) (idstr : String) (t : Timestamp)
    (r : UpdateUserRequest) (h : parseUuid idstr = none)
    (hr : r.validate = Except.ok ()) :
    get_user_by_id s idstr = Except.error (ApiError.Validation "Invalid user ID format") ∧
    update_user s t idstr r =
      (Except.error (ApiError.Validation "Invalid user ID format"), s) ∧
    delete_user s idstr = (Except.error (ApiError.Validation "Invalid user ID format"), s) ∧
    get_post_by_id s idstr = Except.error (ApiError.Validation "Invalid post ID format") ∧
    get_all_posts s (some idstr) =
      Except.error (ApiError.Validation "Invalid user ID format") := by
  refine ⟨?_, ?_, ?_, ?_, ?_⟩ <;>
    simp [get_user_by_id, update_user, delete_user, get_post_by_id, get_all_posts, h, hr]

/-- Witness for C9 at a concrete malformed id. -/
theorem invalid_id_rejected_witness :
    parseUuid "not-a-uuid" = none ∧
    ({ name := some "Jane", email := none } : UpdateUserRequest).validate = Except.ok () ∧
    (get_user_by_id store0 "not-a-uuid" =
        Except.error (ApiError.Validation "Invalid user ID format") ∧
      update_user store0 0 "not-a-uuid" { name := some "Jane", email := none } =
        (Except.error (ApiError.Validation "Invalid user ID format"), store0) ∧
      delete_user store0 "not-a-uuid" =
        (Except.error (ApiError.Validation "Invalid user ID format"), store0) ∧
      get_post_by_id store0 "not-a-uuid" =
        Except.error (ApiError.Validation "Invalid post ID format") ∧
      get_all_posts store0 (some "not-a-uuid") =
        Except.error (ApiError.Validation "Invalid user ID format")) :=
  ⟨rfl, rfl,
   invalid_id_rejected store0 "not-a-uuid" 0 { name := some "Jane", email := none } rfl rfl⟩

/-- The trim-then-drop-empty normalization shared by the optional text
fields never yields an (empty) `some ""`. -/
theorem normalizedOption_ne_some_empty (o : Option String) :
    (o.map (fun c => strTrim c)).filter (fun c => !(c == "")) ≠ some "" := by
  cases o with
  | none => simp
  | some c =>
    by_cases hc : strTrim c == ""
    · simp [Option.filter, hc]
    · simp only [Option.map_some, Option.filter, hc, Bool.not_false, if_true]
      simp only [beq_iff_eq] at hc
      simp [hc]

/-- C10: a present optional text field consisting only of whitespace
(post content, vocabulary en_example / ja_example) normalizes to
`none`, an empty string is never produced for an optional column, and
these normalized values are exactly what the inserts bind. -/
theorem whitespace_optional_normalized_to_none (r : CreatePostRequest)
    (v : CreateVocabularyRequest) (s : Store) (w : String) (newId : Uuid) (t : Timestamp)
    (hw : strTrim w = "") :
    ({ r with content := some w } : CreatePostRequest).get_normalized_content = none ∧
    ({ v with en_example := some w } : CreateVocabularyRequest).get_normalized_en_example
      = none ∧
    ({ v with ja_example := some w } : CreateVocabularyRequest).get_normalized_ja_example
      = none ∧
    r.get_normalized_content ≠ some "" ∧
    v.get_normalized_en_example ≠ some "" ∧
    v.get_normalized_ja_example ≠ some "" ∧
    (r.into_post newId t).content = r.get_normalized_content ∧
    (∀ row s2, create_vocabulary s t v = (Except.ok row, s2) →
      row.en_example = v.get_normalized_en_example ∧
      row.ja_example = v.get_normalized_ja_example) := by
  refine ⟨?_, ?_, ?_, normalizedOption_ne_some_empty r.content,
    normalizedOption_ne_some_empty v.en_example,
    normalizedOption_ne_some_empty v.ja_example, rfl, ?_⟩
  · simp [CreatePostRequest.get_normalized_content, Option.filter, hw]
  · simp [CreateVocabularyRequest.get_normalized_en_example, Option.filter, hw]
  · simp [CreateVocabularyRequest.get_normalized_ja_example, Option.filter, hw]
  · intro row s2 hcv
    cases hval : v.validate with
    | error m => simp [create_vocabulary, hval] at hcv
    | ok u =>
      simp only [create_vocabulary, hval, Prod.mk.injEq, Except.ok.injEq] at hcv
      obtain ⟨h1, h2⟩ := hcv
      subst h1
      exact ⟨rfl, rfl⟩

/-- Witness for C10 at concrete whitespace-only optional fields. -/
theorem whitespace_optional_normalized_to_none_witness :
    strTrim "   " = "" ∧
    (({ user_id := "11111111-1111-1111-1111-111111111111", title := "Title",
          content := some "   " } : CreatePostRequest).get_normalized_content = none ∧
    ({ en_word := "word", ja_word := "言葉", en_example := some "   ",
          ja_example := some "x" } : CreateVocabularyRequest).get_normalized_en_example
        = none ∧
    ({ en_word := "word", ja_word := "言葉", en_example := some "x",
          ja_example := some "   " } : CreateVocabularyRequest).get_normalized_ja_example
        = none) :=
  ⟨rfl,
   ((whitespace_optional_normalized_to_none
      { user_id := "11111111-1111-1111-1111-111111111111", title := "Title", content := none }
      { en_word := "word", ja_word := "言葉", en_example := some "x", ja_example := some "x" }
      store0 "   " "11111111-1111-1111-1111-111111111111" 0 rfl).1),
   ((whitespace_optional_normalized_to_none
      { user_id := "11111111-1111-1111-1111-111111111111", title := "Title", content := none }
      { en_word := "word", ja_word := "言葉", en_example := some "x", ja_example := some "x" }
      store0 "   " "11111111-1111-1111-1111-111111111111" 0 rfl).2.1),
   ((whitespace_optional_normalized_to_none
      { user_id := "11111111-1111-1111-1111-111111111111", title := "Title", content := none }
      { en_word := "word", ja_word := "言葉", en_example := some "x", ja_example := some "x" }
      store0 "   " "11111111-1111-1111-1111-111111111111" 0 rfl).2.2.1)⟩

/-- C8: a successful `create_user` stores the request email trimmed and
lower-cased, and a second `create_user` whose email matches the stored
user's email case-insensitively (same trimmed lower-cased form) returns
`Conflict` and leaves the store unchanged, the first user still among
the rows. -/
theorem create_user_email_conflict (s s1 : Store) (id1 id2 : Uuid)
    (t1 t2 : Timestamp) (r1 r2 : CreateUserRequest) (u1 : UserRow)
    (h1 : create_user s id1 t1 r1 = (Except.ok u1, s1))
    (hv2 : r2.validate = Except.ok ())
    (hcase : strToLower (strTrim r2.email) = strToLower (strTrim r1.email)) :
    u1.email = strToLower (strTrim r1.email) ∧
    create_user s1 id2 t2 r2 =
      (Except.error (ApiError.Conflict "Email address already exists"), s1) ∧
    u1 ∈ s1.users := by
  cases hval : r1.validate with
  | error m => simp [create_user, hval] at h1
  | ok u =>
    simp only [create_user, hval] at h1
    by_cases hd : s.users.any (fun x => x.email == (r1.into_user id1 t1).email) = true
    · rw [if_pos hd] at h1
      simp at h1
    · rw [if_neg hd] at h1
      simp only [Prod.mk.injEq, Except.ok.injEq] at h1
      obtain ⟨hu1, hs1⟩ := h1
      subst hu1
      subst hs1
      have hmem : (r1.into_user id1 t1) ∈ s.users ++ [r1.into_user id1 t1] :=
        List.mem_append_right _ (List.mem_singleton_self _)
      have hbeq : ((r1.into_user id1 t1).email == (r2.into_user id2 t2).email) = true := by
        have he : (r2.into_user id2 t2).email = (r1.into_user id1 t1).email := hcase
        rw [he]
        exact beq_self_eq_true _
      have hdup : (s.users ++ [r1.into_user id1 t1]).any
          (fun x => x.email == (r2.into_user id2 t2).email) = true :=
        List.any_eq_true.mpr ⟨r1.into_user id1 t1, hmem, hbeq⟩
      refine ⟨rfl, ?_, hmem⟩
      simp only [create_user, hv2]
      rw [if_pos hdup]
      rfl

/-- Witness for C8: creating "JOHN@Example.com" stores
"john@example.com", and a second create with "john@example.com"
conflicts while the first row remains. -/
theorem create_user_email_conflict_witness :
    create_user store0 "11111111-1111-1111-1111-111111111111" 0
        { name := "John Doe", email := "JOHN@Example.com" } =
      (Except.ok
        { id := "11111111-1111-1111-1111-111111111111", name := "John Doe",
          email := "john@example.com", created_at := 0, updated_at := 0 },
       { users :=
          [{ id := "11111111-1111-1111-1111-111111111111", name := "John Doe",
             email := "john@example.com", created_at := 0, updated_at := 0 }],
         posts := [], vocab := [], nextVocabId := 1 }) ∧
    ({ name := "Jane Doe", email := "john@example.com" } : CreateUserRequest).validate
      = Except.ok () ∧
    strToLower (strTrim "john@example.com") = strToLower (strTrim "JOHN@Example.com") ∧
    (({ id := "11111111-1111-1111-1111-111111111111", name := "John Doe",
        email := "john@example.com", created_at := 0, updated_at := 0 } : UserRow).email
        = strToLower (strTrim "JOHN@Example.com") ∧
      create_user
        { users :=
           [{ id := "11111111-1111-1111-1111-111111111111", name := "John Doe",
              email := "john@example.com", created_at := 0, updated_at := 0 }],
          posts := [], vocab := [], nextVocabId := 1 }
        "22222222-2222-2222-2222-222222222222" 1
        { name := "Jane Doe", email := "john@example.com" } =
        (Except.error (ApiError.Conflict "Email address already exists"),
         { users :=
            [{ id := "11111111-1111-1111-1111-111111111111", name := "John Doe",
               email := "john@example.com", created_at := 0, updated_at := 0 }],
           posts := [], vocab := [], nextVocabId := 1 }) ∧
      ({ id := "11111111-1111-1111-1111-111111111111", name := "John Doe",
         email := "john@example.com", created_at := 0, updated_at := 0 } : UserRow) ∈
        ({ users :=
            [{ id := "11111111-1111-1111-1111-111111111111", name := "John Doe",
               email := "john@example.com", created_at := 0, updated_at := 0 }],
           posts := [], vocab := [], nextVocabId := 1 } : Store).users) :=
  ⟨rfl, rfl, rfl,
   create_user_email_conflict store0
     { users :=
        [{ id := "11111111-1111-1111-1111-111111111111", name := "John Doe",
           email := "john@example.com", created_at := 0, updated_at := 0 }],
       posts := [], vocab := [], nextVocabId := 1 }
     "11111111-1111-1111-1111-111111111111" "22222222-2222-2222-2222-222222222222" 0 1
     { name := "John Doe", email := "JOHN@Example.com" }
     { name := "Jane Doe", email := "john@example.com" }
     { id := "11111111-1111-1111-1111-111111111111", name := "John Doe",
       email := "john@example.com", created_at := 0, updated_at := 0 }
     rfl rfl rfl⟩
